import Mathlib

/-!
Verification of the Portfolio-Optimization repository's specification against a
shallow embedding of its Python source.

Conventions used throughout this development:
  * Python floats are modelled as rationals (`ℚ`); where NaN can occur as a
    value we use `Option ℚ` (`none` = NaN) or the `PF` type below (which also
    carries the signed infinities produced by division by zero).
  * numpy / pandas primitives (`np.sort`, `np.percentile`, `np.clip`,
    `Series.cumprod`, `Series.cummax`, `DataFrame.mean`, `DataFrame.cov`,
    slicing and negative indexing) are translated literally.
  * External collaborators — the SLSQP solver, the multivariate-normal sampler
    and the uniform random draws — are parameters of the embedded functions, so
    theorems quantify over every behaviour those collaborators may exhibit.
  * `sqrtA` abstracts the (irrational-valued) floating point square root used
    inside objective functions; no claim below depends on its value.
-/

/-- A Python float that is either a real number or NaN (`none`). -/
abbrev F := Option ℚ

/-- `np.any(np.isnan(v))` for a vector. -/
def anyNaN (v : List F) : Bool := v.any Option.isNone

/-- `np.any(np.isnan(m))` for a matrix. -/
def anyNaNMat (m : List (List F)) : Bool := m.any anyNaN

/-- `np.mean` of a possibly empty list: NaN (`none`) on the empty list. -/
def listMean (l : List ℚ) : Option ℚ :=
  if l = [] then none else some (l.sum / l.length)

/-- Total mean (used where the argument is provably nonempty in the source). -/
def listMeanD (l : List ℚ) : ℚ := l.sum / l.length

/-- `np.dot` of two vectors. -/
def dotQ (a b : List ℚ) : ℚ := (List.zipWith (· * ·) a b).sum

/-- `np.dot(m, w)`: matrix-vector product. -/
def matVec (m : List (List ℚ)) (w : List ℚ) : List ℚ := m.map (fun row => dotQ row w)

/-- `np.dot(w, np.dot(m, w))`: the quadratic form `w · m · w`. -/
def quadQ (w : List ℚ) (m : List (List ℚ)) : ℚ := dotQ w (matVec m w)

/-- Python `int(q)`: truncation toward zero (for a reduced fraction this is
the numerator `tdiv` the denominator). -/
def intTrunc (q : ℚ) : Int := Int.tdiv q.num q.den

/-- Python list indexing `l[k]`, including negative-index wraparound;
`none` models an `IndexError`. -/
def pyGet (l : List ℚ) (k : Int) : Option ℚ :=
  if 0 ≤ k then l.get? k.toNat
  else if 0 ≤ (l.length : Int) + k then l.get? ((l.length : Int) + k).toNat
  else none

/-- Python slicing `l[:k]`, including the negative-bound form. -/
def pySlice (l : List ℚ) (k : Int) : List ℚ :=
  if k < 0 then l.take ((l.length : Int) + k).toNat else l.take k.toNat

/-- `np.sort` (ascending). -/
def npSort (l : List ℚ) : List ℚ := l.insertionSort (· ≤ ·)

/-- `scripts/metrics.py` `calculate_var`: sorts the returns and indexes the
sorted array at `int((1 - confidence_level) * len(sorted_returns))`. -/
def calculate_var_scripts (returns : List ℚ) (confidence_level : ℚ) : Option ℚ :=
  let sorted_returns := npSort returns
  let var_index := intTrunc ((1 - confidence_level) * sorted_returns.length)
  pyGet sorted_returns var_index

/-- `scripts/metrics.py` `calculate_cvar`: the mean of the sorted returns below
the VaR index; `none` models the NaN produced by the mean of an empty slice. -/
def calculate_cvar_scripts (returns : List ℚ) (confidence_level : ℚ) : Option ℚ :=
  let sorted_returns := npSort returns
  let var_index := intTrunc ((1 - confidence_level) * sorted_returns.length)
  listMean (pySlice sorted_returns var_index)

/-- `np.percentile(l, q)` with the default linear interpolation; `none` models
the error on an empty array or an out-of-range `q`. -/
def npPercentile (l : List ℚ) (q : ℚ) : Option ℚ :=
  if l = [] then none
  else if q < 0 ∨ 100 < q then none
  else
    let s := npSort l
    let pos := q / 100 * ((s.length : ℚ) - 1)
    let i := (⌊pos⌋).toNat
    let frac := pos - (i : ℚ)
    if i + 1 < s.length then some (s.getD i 0 + frac * (s.getD (i + 1) 0 - s.getD i 0))
    else some (s.getD i 0)

/-- `src/calculations/metrics.py` `calculate_var`:
`np.percentile(returns, (1 - confidence_level) * 100)`. -/
def calculate_var_np (returns : List ℚ) (confidence_level : ℚ) : Option ℚ :=
  npPercentile returns ((1 - confidence_level) * 100)

/-- `src/calculations/metrics.py` `calculate_cvar`: the mean of the returns
at or below the VaR value. -/
def calculate_cvar_np (returns : List ℚ) (confidence_level : ℚ) : Option ℚ :=
  match calculate_var_np returns confidence_level with
  | none => none
  | some v => listMean (returns.filter (· ≤ v))

/-- The classes of float values that arise in the drawdown pipeline:
finite numbers, the signed infinities produced by `x / 0` with `x ≠ 0`,
and NaN produced by `0 / 0`. -/
inductive PF where
  | nan : PF
  | ninf : PF
  | pinf : PF
  | fin : ℚ → PF
deriving DecidableEq, Repr

/-- Is this float value NaN? -/
def PF.isNan : PF → Bool
  | .nan => true
  | _ => false

/-- Pointwise minimum of two non-NaN float values. -/
def pfMin2 : PF → PF → PF
  | .ninf, _ => .ninf
  | _, .ninf => .ninf
  | .pinf, b => b
  | a, .pinf => a
  | .fin p, .fin q => .fin (min p q)
  | .nan, b => b
  | a, .nan => a

/-- `Series.min()` with pandas' default `skipna=True`: NaN entries are dropped,
and the minimum of an all-NaN series is NaN. -/
def pandasMin (l : List PF) : PF :=
  match l.filter (fun x => !x.isNan) with
  | [] => .nan
  | x :: xs => xs.foldl pfMin2 x

/-- `x ≤ 0` for a float value; false for NaN and `+∞`. -/
def pfLeZero : PF → Bool
  | .ninf => true
  | .fin q => decide (q ≤ 0)
  | _ => false

/-- Cumulative products `acc * l₁, acc * l₁ * l₂, …` (`Series.cumprod`). -/
def scanMul (acc : ℚ) : List ℚ → List ℚ
  | [] => []
  | x :: xs => (acc * x) :: scanMul (acc * x) xs

/-- Helper for `Series.cummax`. -/
def scanMax (acc : ℚ) : List ℚ → List ℚ
  | [] => []
  | x :: xs => (max acc x) :: scanMax (max acc x) xs

/-- `Series.cummax()`: running maxima. -/
def cummaxQ : List ℚ → List ℚ
  | [] => []
  | x :: xs => x :: scanMax x xs

/-- One entry of `cumulative_returns / running_max - 1` with float division
semantics: finite when the denominator is nonzero, NaN for `0/0`, and a signed
infinity otherwise (subtracting 1 leaves NaN and the infinities unchanged). -/
def ddEntry (c m : ℚ) : PF :=
  if m ≠ 0 then .fin (c / m - 1)
  else if c = 0 then .nan
  else if 0 < c then .pinf
  else .ninf

/-- `scripts/metrics.py` `calculate_max_drawdown` on a NaN-free return series
(the source raises on NaN input before this computation). -/
def calculate_max_drawdown_scripts (portfolio_returns : List ℚ) : PF :=
  let cumulative_returns := scanMul 1 (portfolio_returns.map (1 + ·))
  let running_max := cummaxQ cumulative_returns
  pandasMin (List.zipWith ddEntry cumulative_returns running_max)

/-- One entry of `(portfolio_values - cumulative_max) / cumulative_max` with
float division semantics. -/
def ddEntrySrc (v m : ℚ) : PF :=
  if m ≠ 0 then .fin ((v - m) / m)
  else if v - m = 0 then .nan
  else if 0 < v - m then .pinf
  else .ninf

/-- `src/calculations/metrics.py` `calculate_max_drawdown` on a series of
portfolio values. -/
def calculate_max_drawdown_src (portfolio_values : List ℚ) : PF :=
  let cumulative_max := cummaxQ portfolio_values
  pandasMin (List.zipWith ddEntrySrc portfolio_values cumulative_max)

/-- The information `scipy.optimize.minimize` returns that the optimizers use. -/
structure SolverResult where
  x : List ℚ
  success : Bool
  message : String
deriving Repr, DecidableEq

/-- An abstract SLSQP solver: it receives the objective, the equality
constraint function, the starting point and the bounds, and returns a
`SolverResult`.  Quantifying over `Solver` quantifies over every behaviour the
external solver may exhibit. -/
abbrev Solver := (List ℚ → ℚ) → (List ℚ → ℚ) → List ℚ → List (ℚ × ℚ) → SolverResult

/-- The dictionary returned by both `optimize_portfolio_with_costs` variants. -/
structure OptOutput where
  weights : List ℚ
  sharpe_ratio : ℚ
  transaction_cost_penalty : ℚ
  success : Bool
  message : String
deriving Repr, DecidableEq

/-- `scripts/optimizer.py` `validate_inputs`: the NaN checks in source order,
then the dimension check (`len` of Python `None` raises a `TypeError`, also
modelled as an error). -/
def validate_inputs (annualized_returns : List F) (covariance_matrix : List (List F))
    (initial_weights : Option (List F)) (transaction_costs : Option (List F)) :
    Except String Unit :=
  if anyNaN annualized_returns then .error "Annualized returns contain NaN values."
  else if anyNaNMat covariance_matrix then .error "Covariance matrix contains NaN values."
  else if (initial_weights.elim false anyNaN) then .error "Initial weights contain NaN values."
  else if (transaction_costs.elim false anyNaN) then .error "Transaction costs contain NaN values."
  else
    match transaction_costs with
    | none => .error "TypeError: object of type NoneType has no len()"
    | some t =>
      if annualized_returns.length ≠ t.length then
        .error "Mismatch between annualized_returns and transaction_costs dimensions."
      else .ok ()

/-- `np.clip(x, [b.0 for b in bounds], [b.1 for b in bounds])`:
elementwise `min(hi, max(lo, x))`. -/
def zipClip (bounds : List (ℚ × ℚ)) (x : List ℚ) : List ℚ :=
  List.zipWith (fun b v => min b.2 (max b.1 v)) bounds x

/-- Strip the NaN tag from a vector that validation has proven NaN-free. -/
def deNaN (v : List F) : List ℚ := v.map (·.getD 0)

/-- `scripts/optimizer.py` `optimize_portfolio_with_costs`, parameterized by
the external `solver` and the abstract float square root `sqrtA`.  Defaults,
validation, the objective, the SLSQP call, the convergence check
(`raise ValueError` on failure), the final clip and the returned dictionary
follow the source line by line. -/
def optimize_portfolio_with_costs_optimizer (solver : Solver) (sqrtA : ℚ → ℚ)
    (annualized_returns : List F) (covariance_matrix : List (List F))
    (initial_weights : Option (List F)) (transaction_costs : Option (List F))
    (risk_free_rate : ℚ) (bounds : Option (List (ℚ × ℚ))) : Except String OptOutput :=
  let num_assets := annualized_returns.length
  let iw := initial_weights.getD (List.replicate num_assets (some ((num_assets : ℚ)⁻¹)))
  let tc := transaction_costs.getD (List.replicate num_assets (some 0))
  match validate_inputs annualized_returns covariance_matrix (some iw) (some tc) with
  | .error e => .error e
  | .ok _ =>
    let b := bounds.getD (List.replicate num_assets (5/100, 3/10))
    let rq := deNaN annualized_returns
    let cq := covariance_matrix.map deNaN
    let iwq := deNaN iw
    let tcq := deNaN tc
    let objective := fun w : List ℚ =>
      -((dotQ w rq - risk_free_rate) / sqrtA (quadQ w cq)) +
        dotQ (List.zipWith (fun x y => |x - y|) w iwq) tcq
    let constraint := fun w : List ℚ => w.sum - 1
    let result := solver objective constraint iwq b
    if result.success = false then .error ("Optimization failed: " ++ result.message)
    else
      let optimal_weights := zipClip b result.x
      .ok { weights := optimal_weights
            sharpe_ratio := -(objective optimal_weights)
            transaction_cost_penalty :=
              dotQ (List.zipWith (fun x y => |x - y|) optimal_weights iwq) tcq
            success := result.success
            message := result.message }

/-- Modelled from the spec: `scripts/constraints.py` imports
`transaction_cost_penalty` from a `constraints` module that is not in the
repository.  Spec §4.2: "Transaction-cost penalty =
Σ |new_weight_i − initial_weight_i| × cost_rate_i". -/
def transaction_cost_penalty (weights initial_weights transaction_costs : List ℚ) : ℚ :=
  dotQ (List.zipWith (fun x y => |x - y|) weights initial_weights) transaction_costs

/-- Modelled from the spec: `scripts/constraints.py` imports `validate_inputs`
from a `constraints` module that is not in the repository.  Spec §4.2: "reject
(with an explicit input-validation error) any NaN in returns, covariance,
initial weights, or transaction costs, and any dimension mismatch between
returns and transaction-cost vectors". -/
def validate_inputs_spec (annualized_returns : List F) (covariance_matrix : List (List F))
    (initial_weights : List F) (transaction_costs : List F) : Except String Unit :=
  if anyNaN annualized_returns then .error "NaN in returns."
  else if anyNaNMat covariance_matrix then .error "NaN in covariance."
  else if anyNaN initial_weights then .error "NaN in initial weights."
  else if anyNaN transaction_costs then .error "NaN in transaction costs."
  else if annualized_returns.length ≠ transaction_costs.length then
    .error "Dimension mismatch between returns and transaction costs."
  else .ok ()

/-- `scripts/constraints.py` `calculate_sharpe_ratio` (negated for
minimization). -/
def calculate_sharpe_ratio_constraints (sqrtA : ℚ → ℚ) (weights annualized_returns : List ℚ)
    (covariance_matrix : List (List ℚ)) (risk_free_rate : ℚ) : ℚ :=
  -((dotQ weights annualized_returns - risk_free_rate) /
      sqrtA (quadQ weights covariance_matrix))

/-- `scripts/constraints.py` `calculate_objective_with_costs`: clips the
weights into `[0.05, 0.3]`, then negative Sharpe plus the transaction-cost
penalty. -/
def calculate_objective_with_costs_constraints (sqrtA : ℚ → ℚ)
    (weights annualized_returns : List ℚ) (covariance_matrix : List (List ℚ))
    (initial_weights transaction_costs : List ℚ) (risk_free_rate : ℚ) : ℚ :=
  let w := weights.map (fun v => min (3/10) (max (5/100) v))
  calculate_sharpe_ratio_constraints sqrtA w annualized_returns covariance_matrix risk_free_rate
    + transaction_cost_penalty w initial_weights transaction_costs

/-- `scripts/constraints.py` `optimize_portfolio_with_costs`: identical shape
to the `optimizer.py` variant except that the default bounds are `[0, 1]` and a
non-converged solver result is only warned about (`print`) — the clipped result
is returned with `success = False` instead of raising. -/
def optimize_portfolio_with_costs_constraints (solver : Solver) (sqrtA : ℚ → ℚ)
    (annualized_returns : List F) (covariance_matrix : List (List F))
    (initial_weights : Option (List F)) (transaction_costs : Option (List F))
    (risk_free_rate : ℚ) (bounds : Option (List (ℚ × ℚ))) : Except String OptOutput :=
  let num_assets := annualized_returns.length
  let iw := initial_weights.getD (List.replicate num_assets (some ((num_assets : ℚ)⁻¹)))
  let tc := transaction_costs.getD (List.replicate num_assets (some 0))
  let b := bounds.getD (List.replicate num_assets (0, 1))
  match validate_inputs_spec annualized_returns covariance_matrix iw tc with
  | .error e => .error e
  | .ok _ =>
    let rq := deNaN annualized_returns
    let cq := covariance_matrix.map deNaN
    let iwq := deNaN iw
    let tcq := deNaN tc
    let objective := fun w : List ℚ =>
      calculate_objective_with_costs_constraints sqrtA w rq cq iwq tcq risk_free_rate
    let constraint := fun w : List ℚ => w.sum - 1
    let result := solver objective constraint iwq b
    let optimal_weights := zipClip b result.x
    .ok { weights := optimal_weights
          sharpe_ratio :=
            -(calculate_sharpe_ratio_constraints sqrtA optimal_weights rq cq risk_free_rate)
          transaction_cost_penalty := transaction_cost_penalty optimal_weights iwq tcq
          success := result.success
          message := result.message }

/-- Column `j` of a row-major matrix (a NaN-free rectangular DataFrame). -/
def column (m : List (List ℚ)) (j : Nat) : List ℚ := m.map (fun row => row.getD j 0)

/-- `DataFrame.mean()`: per-column means of the returns table
(rows = days, columns = assets). -/
def colMeans (m : List (List ℚ)) : List ℚ :=
  (List.range (m.headD []).length).map (fun j => listMeanD (column m j))

/-- `DataFrame.cov()`: the sample covariance matrix (pandas' default
`ddof = 1`). -/
def sampleCov (m : List (List ℚ)) : List (List ℚ) :=
  let n := (m.headD []).length
  let mu := colMeans m
  (List.range n).map (fun j =>
    (List.range n).map (fun k =>
      (List.zipWith (fun x y => (x - mu.getD j 0) * (y - mu.getD k 0))
          (column m j) (column m k)).sum / ((m.length : ℚ) - 1)))

/-- An abstract `np.random.multivariate_normal(mean, cov, size)` stream: given
the mean vector, the covariance matrix, the number of days and a trial index,
it yields the sampled matrix of shape days × assets.  Quantifying over
`Sampler` quantifies over every draw the random sampler may produce. -/
abbrev Sampler := List ℚ → List (List ℚ) → Nat → Nat → List (List ℚ)

/-- `np.cumprod(rows, axis=0)`: cumulative products down each column, with the
running per-column products held in `acc`. -/
def cumprodRows (acc : List ℚ) : List (List ℚ) → List (List ℚ)
  | [] => []
  | row :: rest =>
    let acc2 := List.zipWith (· * ·) acc row
    acc2 :: cumprodRows acc2 rest

/-- `src/simulations/monte_carlo.py` `monte_carlo_simulation`: per trial it
draws a days × assets return matrix from the sampler at the unmodified sample
mean and covariance of `returns`, takes `np.cumprod(1 + daily_returns, axis=0)`
and records `initial_portfolio * cumulative_returns[:, -1]` — the last column,
i.e. the last asset's cumulative path — as that trial's portfolio-value path. -/
def monte_carlo_simulation_src (sample : Sampler) (returns : List (List ℚ))
    (num_simulations time_horizon : Nat) (initial_portfolio : ℚ) : List (List ℚ) :=
  let mean_returns := colMeans returns
  let cov_matrix := sampleCov returns
  (List.range num_simulations).map (fun sim =>
    let daily_returns := sample mean_returns cov_matrix time_horizon sim
    let cumulative_returns :=
      cumprodRows (List.replicate mean_returns.length 1) (daily_returns.map (List.map (1 + ·)))
    cumulative_returns.map (fun row => initial_portfolio * row.getLastD 0))

/-- `src/simulations/monte_carlo.py` `monte_carlo_with_metrics`, lines 62–63:
the per-trial portfolio values `initial_portfolio * (1 + portfolio_returns).cumprod()`
where `portfolio_returns = daily_returns.mean(axis=1)` (the equal-weight mean
across assets). -/
def portfolio_values_with_metrics (daily_returns : List (List ℚ))
    (initial_portfolio : ℚ) : List ℚ :=
  let portfolio_returns := daily_returns.map listMeanD
  (scanMul 1 (portfolio_returns.map (1 + ·))).map (initial_portfolio * ·)

/-- Following the spec's words (§4.3 path-simulation mode): the per-asset
sampled returns of one trial are "compounded into a cumulative portfolio-value
path scaled by an initial value" — the initial value times the cumulative
product of one plus the portfolio daily return, the portfolio daily return
being the equal-weight combination across assets that this repository itself
uses (`daily_returns.mean(axis=1)` in `monte_carlo_with_metrics`). -/
def specPortfolioValuePath (initial_portfolio : ℚ) (daily_returns : List (List ℚ)) :
    List ℚ :=
  (scanMul 1 ((daily_returns.map listMeanD).map (1 + ·))).map (initial_portfolio * ·)

/-- `scripts/simulations.py` `monte_carlo_simulation`: per trial, a random
weight vector (`drawW`) normalized to sum to 1, an optional multiplicative
shock (`drawShock` models `np.random.uniform(-shock_factor, shock_factor, n)`),
and the (volatility, return, Sharpe) triple against the fixed inputs.  The
3 × N result array is the list of its N columns. -/
def monte_carlo_simulation_scripts (drawW drawShock : Nat → List ℚ) (sqrtA : ℚ → ℚ)
    (returns : List ℚ) (covariance_matrix : List (List ℚ)) (num_simulations : Nat)
    (risk_free_rate : ℚ) (shock_factor : Option ℚ) : List (ℚ × ℚ × ℚ) :=
  (List.range num_simulations).map (fun i =>
    let w0 := drawW i
    let weights := w0.map (· / w0.sum)
    let shocked_returns :=
      match shock_factor with
      | some _ => List.zipWith (fun r u => r * (1 + u)) returns (drawShock i)
      | none => returns
    let portfolio_return := dotQ weights shocked_returns
    let portfolio_volatility := sqrtA (quadQ weights covariance_matrix)
    let sharpe_ratio := (portfolio_return - risk_free_rate) / portfolio_volatility
    (portfolio_volatility, portfolio_return, sharpe_ratio))

/-- Is a square matrix diagonal (all off-diagonal entries zero)? -/
def isDiag (c : List (List ℚ)) : Bool :=
  List.range c.length |>.all (fun j =>
    List.range c.length |>.all (fun k => j = k || (c.getD j []).getD k 0 = 0))

/-- Determinant of a 2 × 2 matrix. -/
def det2 (c : List (List ℚ)) : ℚ :=
  (c.getD 0 []).getD 0 0 * (c.getD 1 []).getD 1 0 -
    (c.getD 0 []).getD 1 0 * (c.getD 1 []).getD 0 0

theorem npSort_sorted (l : List ℚ) : List.Sorted (· ≤ ·) (npSort l) :=
  List.sorted_insertionSort _ l

theorem npSort_perm (l : List ℚ) : List.Perm (npSort l) l :=
  List.perm_insertionSort _ l

theorem npSort_length (l : List ℚ) : (npSort l).length = l.length :=
  List.length_insertionSort _ l

theorem listMean_le_of_forall_le {l : List ℚ} {b : ℚ} (hne : l ≠ [])
    (h : ∀ x ∈ l, x ≤ b) : ∃ m, listMean l = some m ∧ m ≤ b := by
  refine ⟨l.sum / l.length, by simp [listMean, hne], ?_⟩
  have hlen : 0 < (l.length : ℚ) := by
    have h0 : 0 < l.length := List.length_pos.mpr hne
    exact_mod_cast h0
  rw [div_le_iff hlen]
  calc l.sum ≤ l.length • b := List.sum_le_card_nsmul l b h
    _ = b * l.length := by rw [nsmul_eq_mul]; ring

/-- Claim C10: for every non-empty return series whose length `n` satisfies
`int((1 - confidence_level) * n) = 0`, `calculate_cvar` in `scripts/metrics.py`
averages the empty slice `sorted_returns[:0]` and therefore returns NaN. -/
theorem cvar_scripts_nan_on_small_tail (returns : List ℚ) (confidence_level : ℚ)
    (hne : returns ≠ [])
    (h : intTrunc ((1 - confidence_level) * returns.length) = 0) :
    calculate_cvar_scripts returns confidence_level = none := by
  show listMean (pySlice (npSort returns)
      (intTrunc ((1 - confidence_level) * (npSort returns).length))) = none
  rw [npSort_length, h]
  simp [pySlice, listMean]

/-- Witness for C10: the two-element series `[0.01, -0.02]` at the default
confidence level 0.95 has `int(0.05 * 2) = 0` and CVaR evaluates to NaN. -/
theorem cvar_scripts_nan_on_small_tail_witness :
    (([1/100, -2/100] : List ℚ) ≠ [] ∧
        intTrunc ((1 - 19/20) * (([1/100, -2/100] : List ℚ)).length) = 0) ∧
      calculate_cvar_scripts [1/100, -2/100] (19/20) = none :=
  ⟨⟨by simp, by norm_num [intTrunc, Int.tdiv]⟩,
    cvar_scripts_nan_on_small_tail [1/100, -2/100] (19/20) (by simp)
      (by norm_num [intTrunc, Int.tdiv])⟩

/-- Counterexample for C8: the claim says `calculate_var` returns −0.02 on
`[-0.02, -0.01, 0.0, 0.01, 0.03]` at confidence 0.95, but the percentile-based
`calculate_var` of `src/calculations/metrics.py` returns −0.018
(`np.percentile` interpolates between the two smallest values). -/
theorem var_np_testvector_ne_002 :
    calculate_var_np [-2/100, -1/100, 0, 1/100, 3/100] (95/100) = some (-9/500) ∧
      (-9/500 : ℚ) ≠ -2/100 := by
  refine ⟨?_, by norm_num⟩
  norm_num [calculate_var_np, npPercentile, npSort, List.insertionSort,
    List.orderedInsert]
  intro h
  simp at h

/-- Claim C8 as amended: on `[-0.02, -0.01, 0.0, 0.01, 0.03]` at confidence
0.95 the `scripts/metrics.py` `calculate_var` returns exactly −0.02, while the
percentile-based `calculate_var` of `src/calculations/metrics.py` returns
−0.018 (which agrees with −0.02 only after rounding to two decimals, as the
repository's own test asserts). -/
theorem var_testvector_values :
    calculate_var_scripts [-2/100, -1/100, 0, 1/100, 3/100] (95/100) = some (-2/100) ∧
      calculate_var_np [-2/100, -1/100, 0, 1/100, 3/100] (95/100) = some (-9/500) := by
  constructor
  · norm_num [calculate_var_scripts, npSort, List.insertionSort, List.orderedInsert,
      intTrunc, Int.tdiv, pyGet]
  · norm_num [calculate_var_np, npPercentile, npSort, List.insertionSort,
      List.orderedInsert]
    intro h
    simp at h

theorem pfLeZero_pfMin2 {a : PF} (b : PF) (h : pfLeZero a = true) :
    pfLeZero (pfMin2 a b) = true := by
  cases a with
  | nan => simp [pfLeZero] at h
  | pinf => simp [pfLeZero] at h
  | ninf => cases b <;> simp [pfMin2, pfLeZero]
  | fin p =>
    have hp : p ≤ 0 := by simpa [pfLeZero] using h
    cases b with
    | nan => simpa [pfMin2, pfLeZero] using hp
    | ninf => simp [pfMin2, pfLeZero]
    | pinf => simpa [pfMin2, pfLeZero] using hp
    | fin q =>
      simp only [pfMin2, pfLeZero, decide_eq_true_eq]
      exact le_trans (min_le_left p q) hp

theorem pfLeZero_foldl (xs : List PF) {x : PF} (h : pfLeZero x = true) :
    pfLeZero (xs.foldl pfMin2 x) = true := by
  induction xs generalizing x with
  | nil => simpa using h
  | cons y ys ih => exact ih (pfLeZero_pfMin2 y h)

theorem pandasMin_head_leZero (x : PF) (rest : List PF) (hn : x.isNan = false)
    (h : pfLeZero x = true) : pfLeZero (pandasMin (x :: rest)) = true := by
  unfold pandasMin
  rw [List.filter_cons, if_pos (by simp [hn])]
  exact pfLeZero_foldl _ h

/-- Counterexample for C9: the return series `[-1.0]` is accepted by
`scripts/metrics.py` `calculate_max_drawdown` (it is NaN-free), but the
cumulative value and its running maximum are both 0, so the drawdown entry is
`0/0 = NaN` and the reported minimum is NaN — not a number ≤ 0. -/
theorem max_drawdown_scripts_nan_at_total_loss :
    calculate_max_drawdown_scripts [-1] = PF.nan ∧
      pfLeZero (calculate_max_drawdown_scripts [-1]) = false := by
  have h : calculate_max_drawdown_scripts [-1] = PF.nan := by
    norm_num [calculate_max_drawdown_scripts, scanMul, cummaxQ, ddEntry,
      pandasMin, PF.isNan, List.zipWith, List.filter]
  exact ⟨h, by rw [h]; rfl⟩

/-- Claim C9 as amended: for every accepted (NaN-free) nonempty return series
whose first return is not −1 (so the first cumulative value is nonzero), the
`scripts/metrics.py` max drawdown is ≤ 0 (its first drawdown entry is exactly
0, and pandas' NaN-skipping minimum is at most any non-NaN entry); likewise
for the portfolio-value variant in `src/calculations/metrics.py` whenever the
first portfolio value is nonzero.  At first return = −1 (resp. first value 0)
the division `0/0` makes the result NaN instead. -/
theorem max_drawdown_nonpositive (r0 v0 : ℚ) (rest vs : List ℚ)
    (h1 : 1 + r0 ≠ 0) (h2 : v0 ≠ 0) :
    pfLeZero (calculate_max_drawdown_scripts (r0 :: rest)) = true ∧
      pfLeZero (calculate_max_drawdown_src (v0 :: vs)) = true := by
  constructor
  · have hc : (1 : ℚ) * (1 + r0) ≠ 0 := by simpa using h1
    show pfLeZero (pandasMin (List.zipWith ddEntry
      (scanMul 1 ((r0 :: rest).map (1 + ·))) (cummaxQ (scanMul 1 ((r0 :: rest).map (1 + ·)))))) = true
    simp only [List.map_cons, scanMul, cummaxQ, List.zipWith]
    have hd : ddEntry (1 * (1 + r0)) (1 * (1 + r0)) = .fin 0 := by
      rw [ddEntry, if_pos hc, div_self hc]
      norm_num
    rw [hd]
    exact pandasMin_head_leZero _ _ rfl (by simp [pfLeZero])
  · show pfLeZero (pandasMin (List.zipWith ddEntrySrc (v0 :: vs) (cummaxQ (v0 :: vs)))) = true
    simp only [cummaxQ, List.zipWith]
    have hd : ddEntrySrc v0 v0 = .fin 0 := by
      rw [ddEntrySrc, if_pos h2]
      norm_num
    rw [hd]
    exact pandasMin_head_leZero _ _ rfl (by simp [pfLeZero])

/-- Witness for C9 at the series `[-0.1, 0.05]` (scripts variant) and the
portfolio values `[100, 105, 90]` (src variant). -/
theorem max_drawdown_nonpositive_witness :
    ((1 : ℚ) + (-1/10) ≠ 0 ∧ (100 : ℚ) ≠ 0) ∧
      (pfLeZero (calculate_max_drawdown_scripts [-1/10, 1/20]) = true ∧
        pfLeZero (calculate_max_drawdown_src [100, 105, 90]) = true) :=
  ⟨⟨by norm_num, by norm_num⟩,
    max_drawdown_nonpositive (-1/10) 100 [1/20] [105, 90] (by norm_num) (by norm_num)⟩

theorem cumprodRows_length (acc : List ℚ) (rows : List (List ℚ)) :
    (cumprodRows acc rows).length = rows.length := by
  induction rows generalizing acc with
  | nil => rfl
  | cons row rest ih => simp [cumprodRows, ih]

/-- Claim C7: random-allocation simulation with `num_simulations` trials
returns exactly that many (volatility, return, Sharpe) triples, and
path-simulation with `num_simulations` trials returns exactly that many
portfolio-value paths, each of length `time_horizon` (given the
multivariate-normal sampler's contract of returning `time_horizon` rows). -/
theorem simulation_trial_counts (drawW drawShock : Nat → List ℚ) (sqrtA : ℚ → ℚ)
    (returns1 : List ℚ) (cov1 : List (List ℚ)) (num_simulations1 : Nat)
    (risk_free_rate : ℚ) (shock_factor : Option ℚ) (sample : Sampler)
    (returns2 : List (List ℚ)) (num_simulations2 time_horizon : Nat)
    (initial_portfolio : ℚ)
    (hshape : ∀ sim, (sample (colMeans returns2) (sampleCov returns2)
      time_horizon sim).length = time_horizon) :
    (monte_carlo_simulation_scripts drawW drawShock sqrtA returns1 cov1
        num_simulations1 risk_free_rate shock_factor).length = num_simulations1 ∧
      (monte_carlo_simulation_src sample returns2 num_simulations2 time_horizon
        initial_portfolio).length = num_simulations2 ∧
      ∀ p ∈ monte_carlo_simulation_src sample returns2 num_simulations2 time_horizon
        initial_portfolio, p.length = time_horizon := by
  refine ⟨by simp [monte_carlo_simulation_scripts], by simp [monte_carlo_simulation_src], ?_⟩
  intro p hp
  simp only [monte_carlo_simulation_src, List.mem_map] at hp
  obtain ⟨sim, _, rfl⟩ := hp
  rw [List.length_map, cumprodRows_length, List.length_map, hshape]

/-- Witness for C7: two random-allocation trials and one three-day path trial
with a concrete sampler honouring the shape contract. -/
theorem simulation_trial_counts_witness :
    (∀ sim : Nat, (((fun _ _ T _ => List.replicate T [0]) : Sampler)
        (colMeans [[0]]) (sampleCov [[0]]) 3 sim).length = 3) ∧
      ((monte_carlo_simulation_scripts (fun _ => [1, 1]) (fun _ => [0, 0]) (fun q => q)
          [1/10, 1/5] [[1, 0], [0, 1]] 2 (1/50) none).length = 2 ∧
        (monte_carlo_simulation_src (fun _ _ T _ => List.replicate T [0]) [[0]] 1 3 1).length = 1 ∧
        ∀ p ∈ monte_carlo_simulation_src (fun _ _ T _ => List.replicate T [0]) [[0]] 1 3 1,
          p.length = 3) :=
  ⟨fun _ => by simp,
    simulation_trial_counts (fun _ => [1, 1]) (fun _ => [0, 0]) (fun q => q)
      [1/10, 1/5] [[1, 0], [0, 1]] 2 (1/50) none (fun _ _ T _ => List.replicate T [0])
      [[0]] 1 3 1 (fun _ => by simp)⟩

theorem validate_inputs_ok_inversion (a : List F) (c : List (List F)) (w t : List F)
    (h : validate_inputs a c (some w) (some t) = .ok ()) :
    anyNaN a = false ∧ anyNaNMat c = false ∧ anyNaN w = false ∧ anyNaN t = false ∧
      a.length = t.length := by
  unfold validate_inputs at h
  split_ifs at h <;> simp_all

/-- Claim C5: `optimize_portfolio_with_costs` (scripts/optimizer.py) validates
its inputs before optimizing: whenever the annualized returns, the covariance
matrix, the caller-supplied initial weights or transaction costs contain a NaN,
or the returns and the caller-supplied transaction-cost vector differ in
length, the function returns an input-validation error — and it does so for
every possible solver, i.e. no optimization step runs. -/
theorem opc_optimizer_validates (annualized_returns : List F)
    (covariance_matrix : List (List F)) (initial_weights : Option (List F))
    (transaction_costs : Option (List F)) (risk_free_rate : ℚ)
    (bounds : Option (List (ℚ × ℚ)))
    (h : anyNaN annualized_returns = true ∨ anyNaNMat covariance_matrix = true ∨
         (∃ w, initial_weights = some w ∧ anyNaN w = true) ∨
         (∃ t, transaction_costs = some t ∧ anyNaN t = true) ∨
         (∃ t, transaction_costs = some t ∧ annualized_returns.length ≠ t.length)) :
    ∃ msg, ∀ (solver : Solver) (sqrtA : ℚ → ℚ),
      optimize_portfolio_with_costs_optimizer solver sqrtA annualized_returns
        covariance_matrix initial_weights transaction_costs risk_free_rate bounds =
        .error msg := by
  cases hv : validate_inputs annualized_returns covariance_matrix
      (some (initial_weights.getD (List.replicate annualized_returns.length
        (some ((annualized_returns.length : ℚ)⁻¹)))))
      (some (transaction_costs.getD (List.replicate annualized_returns.length (some 0)))) with
  | error m =>
    refine ⟨m, fun solver sqrtA => ?_⟩
    unfold optimize_portfolio_with_costs_optimizer
    simp only [hv]
  | ok u =>
    exfalso
    obtain ⟨h1, h2, h3, h4, h5⟩ := validate_inputs_ok_inversion _ _ _ _ (by cases u; exact hv)
    rcases h with h | h | ⟨w, hw, hnan⟩ | ⟨t, ht, hnan⟩ | ⟨t, ht, hlen⟩
    · rw [h1] at h; exact Bool.false_ne_true h
    · rw [h2] at h; exact Bool.false_ne_true h
    · rw [hw] at h3; simp only [Option.getD_some] at h3; rw [h3] at hnan
      exact Bool.false_ne_true hnan
    · rw [ht] at h4; simp only [Option.getD_some] at h4; rw [h4] at hnan
      exact Bool.false_ne_true hnan
    · rw [ht] at h5; simp only [Option.getD_some] at h5; exact hlen h5

/-- Witness for C5: a NaN in the returns vector makes the optimizer raise the
validation error for every solver. -/
theorem opc_optimizer_validates_witness :
    (anyNaN [some 1, none] = true ∨ anyNaNMat [[some 1, some 0], [some 0, some 1]] = true ∨
        (∃ w, (none : Option (List F)) = some w ∧ anyNaN w = true) ∨
        (∃ t, (none : Option (List F)) = some t ∧ anyNaN t = true) ∨
        (∃ t, (none : Option (List F)) = some t ∧ ([some 1, none] : List F).length ≠ t.length)) ∧
      ∃ msg, ∀ (solver : Solver) (sqrtA : ℚ → ℚ),
        optimize_portfolio_with_costs_optimizer solver sqrtA [some 1, none]
          [[some 1, some 0], [some 0, some 1]] none none (1/50) none = .error msg :=
  ⟨Or.inl rfl,
    opc_optimizer_validates [some 1, none] [[some 1, some 0], [some 0, some 1]]
      none none (1/50) none (Or.inl rfl)⟩

theorem anyNaN_replicate (n : Nat) (q : ℚ) : anyNaN (List.replicate n (some q)) = false := by
  simp [anyNaN]

theorem validate_inputs_ok_of (a : List F) (c : List (List F)) (w t : List F)
    (h1 : anyNaN a = false) (h2 : anyNaNMat c = false) (h3 : anyNaN w = false)
    (h4 : anyNaN t = false) (h5 : a.length = t.length) :
    validate_inputs a c (some w) (some t) = .ok () := by
  unfold validate_inputs
  simp [h1, h2, h3, h4, h5]

theorem validate_inputs_spec_ok_of (a : List F) (c : List (List F)) (w t : List F)
    (h1 : anyNaN a = false) (h2 : anyNaNMat c = false) (h3 : anyNaN w = false)
    (h4 : anyNaN t = false) (h5 : a.length = t.length) :
    validate_inputs_spec a c w t = .ok () := by
  unfold validate_inputs_spec
  simp [h1, h2, h3, h4, h5]

/-- Is the optimizer result a returned dictionary (as opposed to a raised
error)? -/
def exceptIsOk (e : Except String OptOutput) : Bool :=
  match e with
  | .ok _ => true
  | .error _ => false

/-- The `success` flag of a returned dictionary (`false` for a raised error). -/
def okSuccess (e : Except String OptOutput) : Bool :=
  match e with
  | .ok o => o.success
  | .error _ => false

/-- The `weights` entry of a returned dictionary (`[]` for a raised error). -/
def okWeights (e : Except String OptOutput) : List ℚ :=
  match e with
  | .ok o => o.weights
  | .error _ => []

/-- A solver that reports non-convergence on every input, echoing the starting
point as its iterate. -/
def slsqpAlwaysFails : Solver := fun _ _ x0 _ =>
  { x := x0, success := false, message := "Iteration limit reached" }

/-- Counterexample for C4: on identical valid inputs with a non-converging
solver, `scripts/optimizer.py` raises (`Except.error`) while
`scripts/constraints.py` returns the result dictionary with
`success = False` — the two optimizer variants do not apply one
convergence-failure policy. -/
theorem convergence_policy_differs_concrete :
    exceptIsOk (optimize_portfolio_with_costs_optimizer slsqpAlwaysFails (fun q => q)
        [some (1/10), some (1/5)] [[some 1, some 0], [some 0, some 1]]
        none none (1/50) none) = false ∧
      exceptIsOk (optimize_portfolio_with_costs_constraints slsqpAlwaysFails (fun q => q)
        [some (1/10), some (1/5)] [[some 1, some 0], [some 0, some 1]]
        none none (1/50) none) = true ∧
      okSuccess (optimize_portfolio_with_costs_constraints slsqpAlwaysFails (fun q => q)
        [some (1/10), some (1/5)] [[some 1, some 0], [some 0, some 1]]
        none none (1/50) none) = false := by
  refine ⟨?_, ?_, ?_⟩ <;>
    norm_num [optimize_portfolio_with_costs_optimizer,
      optimize_portfolio_with_costs_constraints, validate_inputs,
      validate_inputs_spec, anyNaN, anyNaNMat, slsqpAlwaysFails, exceptIsOk,
      okSuccess, deNaN, zipClip]

/-- Claim C4 as amended: the convergence-failure policy differs between the
optimizer variants.  For any valid inputs (no NaNs, matching transaction-cost
length) and any solver that reports non-convergence,
`scripts/optimizer.py` `optimize_portfolio_with_costs` raises
(`ValueError: Optimization failed`), while `scripts/constraints.py`
`optimize_portfolio_with_costs` prints a warning and returns the clipped
result dictionary with `success = False`. -/
theorem convergence_policy_differs (solver : Solver) (sqrtA : ℚ → ℚ)
    (annualized_returns : List F) (covariance_matrix : List (List F))
    (initial_weights transaction_costs : Option (List F)) (risk_free_rate : ℚ)
    (bounds : Option (List (ℚ × ℚ)))
    (hfail : ∀ o g x b, (solver o g x b).success = false)
    (h1 : anyNaN annualized_returns = false) (h2 : anyNaNMat covariance_matrix = false)
    (h3 : ∀ w, initial_weights = some w → anyNaN w = false)
    (h4 : ∀ t, transaction_costs = some t → anyNaN t = false)
    (h5 : ∀ t, transaction_costs = some t → annualized_returns.length = t.length) :
    exceptIsOk (optimize_portfolio_with_costs_optimizer solver sqrtA annualized_returns
        covariance_matrix initial_weights transaction_costs risk_free_rate bounds) = false ∧
      exceptIsOk (optimize_portfolio_with_costs_constraints solver sqrtA annualized_returns
        covariance_matrix initial_weights transaction_costs risk_free_rate bounds) = true ∧
      okSuccess (optimize_portfolio_with_costs_constraints solver sqrtA annualized_returns
        covariance_matrix initial_weights transaction_costs risk_free_rate bounds) = false := by
  have hiw : anyNaN (initial_weights.getD (List.replicate annualized_returns.length
      (some ((annualized_returns.length : ℚ)⁻¹)))) = false := by
    cases hw : initial_weights with
    | none => simpa using anyNaN_replicate annualized_returns.length _
    | some w => simpa using h3 w hw
  have htc : anyNaN (transaction_costs.getD (List.replicate annualized_returns.length
      (some 0))) = false := by
    cases ht : transaction_costs with
    | none => simpa using anyNaN_replicate annualized_returns.length 0
    | some t => simpa using h4 t ht
  have hlen : annualized_returns.length = (transaction_costs.getD
      (List.replicate annualized_returns.length (some 0))).length := by
    cases ht : transaction_costs with
    | none => simp
    | some t => simpa using h5 t ht
  have hv1 := validate_inputs_ok_of annualized_returns covariance_matrix _ _ h1 h2 hiw htc hlen
  have hv2 := validate_inputs_spec_ok_of annualized_returns covariance_matrix _ _ h1 h2 hiw htc hlen
  refine ⟨?_, ?_, ?_⟩
  · unfold optimize_portfolio_with_costs_optimizer
    simp [hv1, hfail, exceptIsOk]
  · unfold optimize_portfolio_with_costs_constraints
    simp [hv2, exceptIsOk]
  · unfold optimize_portfolio_with_costs_constraints
    simp [hv2, okSuccess, hfail]

/-- Witness for C4: the always-failing solver on concrete valid two-asset
inputs. -/
theorem convergence_policy_differs_witness :
    ((∀ o g x b, (slsqpAlwaysFails o g x b).success = false) ∧
        anyNaN [some (1/10), some (1/5)] = false ∧
        anyNaNMat [[some 1, some 0], [some 0, some 1]] = false) ∧
      (exceptIsOk (optimize_portfolio_with_costs_optimizer slsqpAlwaysFails (fun q => q)
          [some (1/10), some (1/5)] [[some 1, some 0], [some 0, some 1]]
          none (some [some 0, some 0]) (1/50) none) = false ∧
        exceptIsOk (optimize_portfolio_with_costs_constraints slsqpAlwaysFails (fun q => q)
          [some (1/10), some (1/5)] [[some 1, some 0], [some 0, some 1]]
          none (some [some 0, some 0]) (1/50) none) = true ∧
        okSuccess (optimize_portfolio_with_costs_constraints slsqpAlwaysFails (fun q => q)
          [some (1/10), some (1/5)] [[some 1, some 0], [some 0, some 1]]
          none (some [some 0, some 0]) (1/50) none) = false) :=
  ⟨⟨fun _ _ _ _ => rfl, rfl, rfl⟩,
    convergence_policy_differs slsqpAlwaysFails (fun q => q)
      [some (1/10), some (1/5)] [[some 1, some 0], [some 0, some 1]]
      none (some [some 0, some 0]) (1/50) none
      (fun _ _ _ _ => rfl) rfl rfl (fun w hw => by cases hw)
      (fun t ht => by cases ht; rfl) (fun t ht => by cases ht; rfl)⟩

theorem zipClip_bounds (b : List (ℚ × ℚ)) (x : List ℚ) (hb : ∀ p ∈ b, p.1 ≤ p.2)
    (i : Nat) (h : i < (zipClip b x).length) :
    (b.getD i (0, 0)).1 ≤ (zipClip b x).get ⟨i, h⟩ ∧
      (zipClip b x).get ⟨i, h⟩ ≤ (b.getD i (0, 0)).2 := by
  have hlen : (zipClip b x).length = min b.length x.length := by
    simp [zipClip]
  have hib : i < b.length := lt_of_lt_of_le (hlen ▸ h) (min_le_left _ _)
  have hix : i < x.length := lt_of_lt_of_le (hlen ▸ h) (min_le_right _ _)
  have hg : (zipClip b x).get ⟨i, h⟩ = min (b[i].2) (max (b[i].1) x[i]) := by
    show (List.zipWith (fun p v => min p.2 (max p.1 v)) b x)[i] = _
    exact List.getElem_zipWith ..
  have hd : b.getD i (0, 0) = b[i] := List.getD_eq_getElem b (0, 0) hib
  have hple : (b[i]).1 ≤ (b[i]).2 := hb _ (List.getElem_mem hib)
  rw [hg, hd]
  constructor
  · exact le_min hple (le_trans (le_max_left _ _) (le_refl _))
  · exact min_le_left _ _

/-- Counterexample for C1: with per-asset bounds `[(0, 0.3), (0, 0.3)]` (an
infeasible combination with the sum-to-1 constraint) and a solver reporting
non-convergence at the equal-weight start, `scripts/constraints.py`
`optimize_portfolio_with_costs` still returns a result — whose clipped weights
`[0.3, 0.3]` sum to `0.6`, violating `|sum(weights) − 1| ≤ 1e-6`. -/
theorem opc_constraints_sum_violation :
    exceptIsOk (optimize_portfolio_with_costs_constraints slsqpAlwaysFails (fun q => q)
        [some (1/10), some (1/5)] [[some 1, some 0], [some 0, some 1]]
        none none (1/50) (some [(0, 3/10), (0, 3/10)])) = true ∧
      okWeights (optimize_portfolio_with_costs_constraints slsqpAlwaysFails (fun q => q)
        [some (1/10), some (1/5)] [[some 1, some 0], [some 0, some 1]]
        none none (1/50) (some [(0, 3/10), (0, 3/10)])) = [3/10, 3/10] ∧
      ¬(|(okWeights (optimize_portfolio_with_costs_constraints slsqpAlwaysFails (fun q => q)
        [some (1/10), some (1/5)] [[some 1, some 0], [some 0, some 1]]
        none none (1/50) (some [(0, 3/10), (0, 3/10)]))).sum - 1| ≤ 1/1000000) := by
  refine ⟨?_, ?_, ?_⟩ <;>
    norm_num [optimize_portfolio_with_costs_constraints, validate_inputs_spec,
      anyNaN, anyNaNMat, slsqpAlwaysFails, exceptIsOk, okWeights, deNaN, zipClip,
      abs_le, List.zipWith, List.replicate, min_def, max_def]

/-- Claim C1 as amended: in both `optimize_portfolio_with_costs` variants,
every returned weight vector is clipped into the configured bounds, so each
component lies within its per-asset bounds (the defaults — `[0.05, 0.3]` in
optimizer.py, `[0, 1]` in constraints.py — when none are given) whenever each
bound has lower ≤ upper.  The sum-to-1 property is NOT re-established after
the solver returns: clipping can move the sum away from 1, and the
constraints.py variant returns non-converged results whose weights need not
sum to 1 within 1e-6 (see the counterexample). -/
theorem opc_weights_within_bounds (solver : Solver) (sqrtA : ℚ → ℚ)
    (annualized_returns : List F) (covariance_matrix : List (List F))
    (initial_weights transaction_costs : Option (List F)) (risk_free_rate : ℚ)
    (bounds : Option (List (ℚ × ℚ)))
    (hb1 : ∀ p ∈ bounds.getD (List.replicate annualized_returns.length (5/100, 3/10)),
      p.1 ≤ p.2)
    (hb2 : ∀ p ∈ bounds.getD (List.replicate annualized_returns.length (0, 1)),
      p.1 ≤ p.2) :
    (∀ out, optimize_portfolio_with_costs_optimizer solver sqrtA annualized_returns
        covariance_matrix initial_weights transaction_costs risk_free_rate bounds =
        .ok out →
      ∀ i (h : i < out.weights.length),
        ((bounds.getD (List.replicate annualized_returns.length (5/100, 3/10))).getD
            i (0, 0)).1 ≤ out.weights.get ⟨i, h⟩ ∧
          out.weights.get ⟨i, h⟩ ≤
            ((bounds.getD (List.replicate annualized_returns.length (5/100, 3/10))).getD
              i (0, 0)).2) ∧
      (∀ out, optimize_portfolio_with_costs_constraints solver sqrtA annualized_returns
          covariance_matrix initial_weights transaction_costs risk_free_rate bounds =
          .ok out →
        ∀ i (h : i < out.weights.length),
          ((bounds.getD (List.replicate annualized_returns.length (0, 1))).getD
              i (0, 0)).1 ≤ out.weights.get ⟨i, h⟩ ∧
            out.weights.get ⟨i, h⟩ ≤
              ((bounds.getD (List.replicate annualized_returns.length (0, 1))).getD
                i (0, 0)).2) := by
  constructor
  · intro out hout i h
    unfold optimize_portfolio_with_costs_optimizer at hout
    cases hv : validate_inputs annualized_returns covariance_matrix
        (some (initial_weights.getD (List.replicate annualized_returns.length
          (some ((annualized_returns.length : ℚ)⁻¹)))))
        (some (transaction_costs.getD (List.replicate annualized_returns.length (some 0)))) with
    | error m =>
      simp only [hv] at hout
      exact Except.noConfusion hout
    | ok u =>
      cases u
      simp only [hv] at hout
      split_ifs at hout
      obtain rfl : _ = out := Except.ok.inj hout
      exact zipClip_bounds _ _ hb1 i h
  · intro out hout i h
    unfold optimize_portfolio_with_costs_constraints at hout
    cases hv : validate_inputs_spec annualized_returns covariance_matrix
        (initial_weights.getD (List.replicate annualized_returns.length
          (some ((annualized_returns.length : ℚ)⁻¹))))
        (transaction_costs.getD (List.replicate annualized_returns.length (some 0))) with
    | error m =>
      simp only [hv] at hout
      exact Except.noConfusion hout
    | ok u =>
      cases u
      simp only [hv] at hout
      obtain rfl : _ = out := Except.ok.inj hout
      exact zipClip_bounds _ _ hb2 i h

/-- A solver that reports success, echoing the starting point as the optimum. -/
def slsqpEcho : Solver := fun _ _ x0 _ =>
  { x := x0, success := true, message := "Optimization terminated successfully" }

/-- Witness for C1 at concrete two-asset inputs with the default bounds of
each variant. -/
theorem opc_weights_within_bounds_witness :
    ((∀ p ∈ (none : Option (List (ℚ × ℚ))).getD
          (List.replicate ([some (1/10), some (1/5)] : List F).length (5/100, 3/10)),
        p.1 ≤ p.2) ∧
      (∀ p ∈ (none : Option (List (ℚ × ℚ))).getD
          (List.replicate ([some (1/10), some (1/5)] : List F).length (0, 1)),
        p.1 ≤ p.2)) ∧
      ((∀ out, optimize_portfolio_with_costs_optimizer slsqpEcho (fun q => q)
          [some (1/10), some (1/5)] [[some 1, some 0], [some 0, some 1]]
          none none (1/50) none = .ok out →
        ∀ i (h : i < out.weights.length),
          (((none : Option (List (ℚ × ℚ))).getD
              (List.replicate ([some (1/10), some (1/5)] : List F).length
                (5/100, 3/10))).getD i (0, 0)).1 ≤ out.weights.get ⟨i, h⟩ ∧
            out.weights.get ⟨i, h⟩ ≤
              (((none : Option (List (ℚ × ℚ))).getD
                (List.replicate ([some (1/10), some (1/5)] : List F).length
                  (5/100, 3/10))).getD i (0, 0)).2) ∧
        (∀ out, optimize_portfolio_with_costs_constraints slsqpEcho (fun q => q)
            [some (1/10), some (1/5)] [[some 1, some 0], [some 0, some 1]]
            none none (1/50) none = .ok out →
          ∀ i (h : i < out.weights.length),
            (((none : Option (List (ℚ × ℚ))).getD
                (List.replicate ([some (1/10), some (1/5)] : List F).length
                  (0, 1))).getD i (0, 0)).1 ≤ out.weights.get ⟨i, h⟩ ∧
              out.weights.get ⟨i, h⟩ ≤
                (((none : Option (List (ℚ × ℚ))).getD
                  (List.replicate ([some (1/10), some (1/5)] : List F).length
                    (0, 1))).getD i (0, 0)).2)) :=
  ⟨⟨fun p hp => by rcases List.eq_of_mem_replicate hp with rfl; norm_num,
      fun p hp => by rcases List.eq_of_mem_replicate hp with rfl; norm_num⟩,
    opc_weights_within_bounds slsqpEcho (fun q => q)
      [some (1/10), some (1/5)] [[some 1, some 0], [some 0, some 1]]
      none none (1/50) none
      (fun p hp => by rcases List.eq_of_mem_replicate hp with rfl; norm_num)
      (fun p hp => by rcases List.eq_of_mem_replicate hp with rfl; norm_num)⟩

/-- A sampler that ignores its arguments and draws all-zero one-asset returns. -/
def covProbeZero : Sampler := fun _ _ T _ => List.replicate T [0]

/-- A sampler that draws all-zero returns whenever the covariance it is handed
is diagonal, and all-one returns otherwise: it agrees with `covProbeZero` on
every diagonal covariance, so any output difference proves the simulation
consulted the sampler at a non-diagonal covariance. -/
def covProbeBranch : Sampler := fun _ c T _ =>
  if isDiag c then List.replicate T [0] else List.replicate T [1]

/-- Claim C3 as amended: the Monte Carlo simulation applies NO
numerical-degeneracy handling — whenever the sample covariance of the input
returns is non-diagonal (singular or not), the simulation's output still
depends on the sampler's draws at that unmodified covariance: two samplers
that agree on every diagonal covariance (hence on any diagonal-fallback or
pooled-univariate draw) can produce different simulation results.  No fallback
to a diagonal covariance or to a univariate normal draw exists in the code;
the covariance is passed through unchanged. -/
theorem mc_src_no_degeneracy_fallback (returns : List (List ℚ)) (N T : Nat) (init : ℚ)
    (hnd : isDiag (sampleCov returns) = false) (hN : 1 ≤ N) (hT : 1 ≤ T)
    (hi : init ≠ 0) :
    ∃ s1 s2 : Sampler,
      (∀ m c Tn k, isDiag c = true → s1 m c Tn k = s2 m c Tn k) ∧
      monte_carlo_simulation_src s1 returns N T init ≠
        monte_carlo_simulation_src s2 returns N T init := by
  refine ⟨covProbeZero, covProbeBranch,
    fun m c Tn k h => by simp [covProbeZero, covProbeBranch, h], ?_⟩
  intro heq
  have hn0 : (returns.headD []).length ≠ 0 := by
    intro h0
    have hh : returns.headD [] = [] := List.length_eq_zero.mp h0
    have hc : sampleCov returns = [] := by
      simp only [sampleCov]
      rw [hh]
      simp
    rw [hc] at hnd
    simp [isDiag] at hnd
  obtain ⟨n', hn'⟩ := Nat.exists_eq_succ_of_ne_zero hn0
  obtain ⟨T2, rfl⟩ := Nat.exists_eq_add_of_le' hT
  have hmean : (colMeans returns).length = n' + 1 := by
    simp only [colMeans, List.length_map, List.length_range]
    exact hn'
  simp only [monte_carlo_simulation_src] at heq
  rw [List.map_eq_map_iff] at heq
  have hpath := heq 0 (List.mem_range.mpr hN)
  simp only [covProbeZero, covProbeBranch, hnd, if_neg] at hpath
  rw [hmean] at hpath
  simp only [List.replicate_succ, List.replicate, List.map_cons, cumprodRows,
    List.zipWith_cons_cons, List.zipWith_nil_right] at hpath
  have hval := congrArg (fun l => l.getD 0 0) hpath
  simp [List.replicate_succ, cumprodRows] at hval
  exact hi (by linarith)

theorem sampleCov_probe_matrix :
    sampleCov [[1/100, 1/100], [1/50, 1/50], [0, 0]] =
      [[1/10000, 1/10000], [1/10000, 1/10000]] := by
  have hr2 : List.range 2 = [0, 1] := rfl
  norm_num [sampleCov, colMeans, column, listMeanD, hr2, List.zipWith]

theorem probe_isDiag_false :
    isDiag (sampleCov [[1/100, 1/100], [1/50, 1/50], [0, 0]]) = false := by
  have hr2 : List.range 2 = [0, 1] := rfl
  rw [sampleCov_probe_matrix]
  norm_num [isDiag, hr2]

/-- Counterexample for C3: the three-day returns of two perfectly correlated
assets have the singular, non-diagonal sample covariance
`[[1e-4, 1e-4], [1e-4, 1e-4]]` (determinant 0), and the simulation hands
exactly this matrix to the sampler: two samplers agreeing on all diagonal
covariances give different outputs, so no diagonal-covariance or
pooled-univariate fallback takes place. -/
theorem mc_src_singular_cov_reaches_sampler :
    isDiag (sampleCov [[1/100, 1/100], [1/50, 1/50], [0, 0]]) = false ∧
      det2 (sampleCov [[1/100, 1/100], [1/50, 1/50], [0, 0]]) = 0 ∧
      monte_carlo_simulation_src covProbeZero
          [[1/100, 1/100], [1/50, 1/50], [0, 0]] 1 1 10000 ≠
        monte_carlo_simulation_src covProbeBranch
          [[1/100, 1/100], [1/50, 1/50], [0, 0]] 1 1 10000 := by
  refine ⟨probe_isDiag_false, ?_, ?_⟩
  · rw [sampleCov_probe_matrix]
    norm_num [det2]
  · have hr1 : List.range 1 = [0] := rfl
    have hr2 : List.range 2 = [0, 1] := rfl
    norm_num [monte_carlo_simulation_src, covProbeZero, covProbeBranch,
      probe_isDiag_false, cumprodRows, colMeans, column, listMeanD, hr1, hr2,
      List.zipWith, List.replicate]

/-- Witness for C3 at the perfectly-correlated concrete returns, one trial,
one day, initial value 10000. -/
theorem mc_src_no_degeneracy_fallback_witness :
    (isDiag (sampleCov [[1/100, 1/100], [1/50, 1/50], [0, 0]]) = false ∧
        (10000 : ℚ) ≠ 0) ∧
      ∃ s1 s2 : Sampler,
        (∀ m c Tn k, isDiag c = true → s1 m c Tn k = s2 m c Tn k) ∧
        monte_carlo_simulation_src s1 [[1/100, 1/100], [1/50, 1/50], [0, 0]] 1 1 10000 ≠
          monte_carlo_simulation_src s2 [[1/100, 1/100], [1/50, 1/50], [0, 0]] 1 1 10000 :=
  ⟨⟨probe_isDiag_false, by norm_num⟩,
    mc_src_no_degeneracy_fallback [[1/100, 1/100], [1/50, 1/50], [0, 0]] 1 1 10000
      probe_isDiag_false (Nat.le_refl 1) (Nat.le_refl 1) (by norm_num)⟩

/-- A sampler whose every trial draws one day of two-asset returns
`[0.10, 0.00]`. -/
def probeTwoAsset : Sampler := fun _ _ T _ => List.replicate T [1/10, 0]

/-- Claim C2 (code bug, evaluated at the failing input): with two assets, one
simulated day, sampled returns `[0.10, 0.00]` and initial value 10000,
`monte_carlo_simulation` records the path `[10000]` — the value
`initial * cumulative_returns[:, -1]` compounds ONLY the LAST asset's sampled
return (0.00), not the portfolio's.  The spec-compounded portfolio-value path
(initial times the cumulative product of one plus the equal-weight portfolio
daily return 0.05) is `[10500]`, and the sibling `monte_carlo_with_metrics`
in the same file does compound exactly that way. -/
theorem mc_src_records_last_asset_only :
    monte_carlo_simulation_src probeTwoAsset [[0, 0], [0, 0]] 1 1 10000 = [[10000]] ∧
      specPortfolioValuePath 10000
        (probeTwoAsset (colMeans [[0, 0], [0, 0]]) (sampleCov [[0, 0], [0, 0]]) 1 0) =
        [10500] ∧
      portfolio_values_with_metrics [[1/10, 0]] 10000 = [10500] := by
  have hr1 : List.range 1 = [0] := rfl
  have hr2 : List.range 2 = [0, 1] := rfl
  refine ⟨?_, ?_, ?_⟩
  · norm_num [monte_carlo_simulation_src, probeTwoAsset, colMeans, column,
      listMeanD, hr1, hr2, cumprodRows, List.zipWith, List.replicate]
  · norm_num [specPortfolioValuePath, probeTwoAsset, scanMul, listMeanD,
      List.replicate]
  · norm_num [portfolio_values_with_metrics, scanMul, listMeanD]

theorem pyGet_slice (l : List ℚ) (k : Int) (v : ℚ) (h : pyGet l k = some v) :
    ∃ j : Nat, l.get? j = some v ∧ pySlice l k = l.take j := by
  unfold pyGet at h
  split_ifs at h with h1 h2
  · exact ⟨k.toNat, h, by unfold pySlice; rw [if_neg (by omega)]⟩
  · exact ⟨((l.length : Int) + k).toNat, h, by unfold pySlice; rw [if_pos (by omega)]⟩

theorem sorted_take_le {s : List ℚ} (hs : List.Sorted (· ≤ ·) s) (j : Nat)
    (hj : j < s.length) (x : ℚ) (hx : x ∈ s.take j) : x ≤ s.get ⟨j, hj⟩ := by
  obtain ⟨i, hi⟩ := List.mem_iff_get.mp hx
  have hij : (i : Nat) < j := lt_of_lt_of_le i.isLt (by simpa using List.length_take_le j s)
  have hil : (i : Nat) < s.length := lt_trans hij hj
  have hget : (s.take j).get i = s.get ⟨i, hil⟩ := by
    simp [List.getElem_take]
  rw [← hi, hget]
  exact hs.rel_get_of_le (by simpa using le_of_lt hij)

theorem sorted_filter_lt_le {s : List ℚ} (hs : List.Sorted (· ≤ ·) s) (j : Nat)
    (hj : j < s.length) (v : ℚ) (hv : s.get ⟨j, hj⟩ = v) :
    (s.filter (· < v)).length ≤ j := by
  conv_lhs => rw [← List.take_append_drop j s]
  rw [List.filter_append, List.length_append]
  have hdrop : (s.drop j).filter (· < v) = [] := by
    rw [List.filter_eq_nil_iff]
    intro a ha
    obtain ⟨i, hi⟩ := List.mem_iff_get.mp ha
    have hlen : (s.drop j).length = s.length - j := by simp
    have hgi : (s.drop j).get i = s.get ⟨j + i, by omega⟩ := by
      simp [List.getElem_drop]
    have hle : s.get ⟨j, hj⟩ ≤ s.get ⟨j + i, by omega⟩ :=
      hs.rel_get_of_le (by simp)
    rw [← hi, hgi]
    simp only [decide_eq_true_eq, not_lt]
    exact hv ▸ hle
  rw [hdrop]
  simpa using le_trans (List.length_filter_le _ _) (by simpa using List.length_take_le j s)

/-- Claim C6: for any return series with more than one value strictly below
the VaR threshold at confidence level `c`, CVaR ≤ VaR — in both
implementations: `scripts/metrics.py` (sorted-index VaR, mean of the sorted
prefix as CVaR) and `src/calculations/metrics.py` (percentile VaR, mean of
the returns at or below it as CVaR). -/
theorem cvar_le_var_both (returns : List ℚ) (confidence_level v : ℚ) :
    (calculate_var_scripts returns confidence_level = some v →
      1 < (returns.filter (· < v)).length →
      ∃ w, calculate_cvar_scripts returns confidence_level = some w ∧ w ≤ v) ∧
    (calculate_var_np returns confidence_level = some v →
      1 < (returns.filter (· < v)).length →
      ∃ w, calculate_cvar_np returns confidence_level = some w ∧ w ≤ v) := by
  constructor
  · intro hv hcount
    have hsorted := npSort_sorted returns
    have hperm := npSort_perm returns
    obtain ⟨j, hj, hslice⟩ := pyGet_slice _ _ _ hv
    rw [List.get?_eq_some] at hj
    obtain ⟨hjl, hjv⟩ := hj
    have hcount2 : 1 < ((npSort returns).filter (· < v)).length := by
      rw [List.Perm.length_eq ((hperm.filter _))]
      exact hcount
    have hle : ((npSort returns).filter (· < v)).length ≤ j :=
      sorted_filter_lt_le hsorted j hjl v hjv
    have hj2 : 2 ≤ j := by omega
    have htake : (npSort returns).take j ≠ [] := by
      apply List.ne_nil_of_length_pos
      rw [List.length_take]
      omega
    have hall : ∀ x ∈ (npSort returns).take j, x ≤ v := by
      intro x hx
      rw [← hjv]
      exact sorted_take_le hsorted j hjl x hx
    obtain ⟨w, hw, hwle⟩ := listMean_le_of_forall_le htake hall
    refine ⟨w, ?_, hwle⟩
    show listMean (pySlice (npSort returns)
      (intTrunc ((1 - confidence_level) * (npSort returns).length))) = some w
    rw [hslice]
    exact hw
  · intro hv hcount
    have hx : ∃ x, x ∈ returns ∧ x < v := by
      have hpos : 0 < (returns.filter (· < v)).length := by omega
      obtain ⟨x, hxmem⟩ := List.exists_mem_of_length_pos hpos
      have := List.mem_filter.mp hxmem
      exact ⟨x, this.1, by simpa using this.2⟩
    obtain ⟨x, hxr, hxv⟩ := hx
    have hne : returns.filter (· ≤ v) ≠ [] := by
      apply List.ne_nil_of_mem (a := x)
      rw [List.mem_filter]
      exact ⟨hxr, by simpa using le_of_lt hxv⟩
    have hall : ∀ y ∈ returns.filter (· ≤ v), y ≤ v := by
      intro y hy
      simpa using (List.mem_filter.mp hy).2
    obtain ⟨w, hw, hwle⟩ := listMean_le_of_forall_le hne hall
    refine ⟨w, ?_, hwle⟩
    unfold calculate_cvar_np
    rw [hv]
    exact hw

/-- Witness for C6 on `[-3, -2, -1, 0, 1, 2]` at confidence 0.5: the scripts
VaR is 0 with three values below it and CVaR −2; the percentile VaR is −1/2
with two values below it and CVaR −2. -/
theorem cvar_le_var_both_witness :
    (calculate_var_scripts [-3, -2, -1, 0, 1, 2] (1/2) = some 0 ∧
      1 < (([-3, -2, -1, 0, 1, 2] : List ℚ).filter (· < 0)).length ∧
      ∃ w, calculate_cvar_scripts [-3, -2, -1, 0, 1, 2] (1/2) = some w ∧ w ≤ 0) ∧
    (calculate_var_np [-3, -2, -1, 0, 1, 2] (1/2) = some (-1/2) ∧
      1 < (([-3, -2, -1, 0, 1, 2] : List ℚ).filter (· < -1/2)).length ∧
      ∃ w, calculate_cvar_np [-3, -2, -1, 0, 1, 2] (1/2) = some w ∧ w ≤ -1/2) := by
  have h1 : calculate_var_scripts [-3, -2, -1, 0, 1, 2] (1/2) = some 0 := by
    norm_num [calculate_var_scripts, npSort, List.insertionSort, List.orderedInsert,
      intTrunc, Int.tdiv, pyGet, Int.toNat]
  have h2 : 1 < (([-3, -2, -1, 0, 1, 2] : List ℚ).filter (· < 0)).length := by
    norm_num [List.filter]
  have h4 : calculate_var_np [-3, -2, -1, 0, 1, 2] (1/2) = some (-1/2) := by
    norm_num [calculate_var_np, npPercentile, npSort, List.insertionSort,
      List.orderedInsert, Int.toNat]
    intro h
    simp at h
  have h5 : 1 < (([-3, -2, -1, 0, 1, 2] : List ℚ).filter (· < -1/2)).length := by
    norm_num [List.filter]
  exact ⟨⟨h1, h2, (cvar_le_var_both [-3, -2, -1, 0, 1, 2] (1/2) 0).1 h1 h2⟩,
    ⟨h4, h5, (cvar_le_var_both [-3, -2, -1, 0, 1, 2] (1/2) (-1/2)).2 h4 h5⟩⟩
